import Mathlib

/-!
A shallow embedding of `src/app.py`, the Flask application of the
restaurant-menu chat assistant, together with proofs of the behavioural
claims about it.

Modelling choices:
* Parsed JSON values are the inductive `Json`; JSON numbers are modelled as
  integers (no claim depends on fractional values).
* The filesystem under `menus/` is an oracle `String → MenuFile`: for each
  slug the file is absent, present but not valid JSON, or parses to a value.
* The Flask session's `"history"` entry is `Option (List Msg)`: `none` when
  the key is absent, `some h` when present.
* The external completion service is an oracle `List Msg → Completion`
  returning either the reply text of the first choice or the text of the
  raised exception.
* `request.json` is modelled as already parsed: the optional string fields
  `message` and `restaurant`, plus the query-string parameter `restaurant`.
-/

/-- A JSON value as returned by `json.load`. -/
inductive Json where
  | null
  | bool (b : Bool)
  | num (n : Int)
  | str (s : String)
  | arr (xs : List Json)
  | obj (fields : List (String × Json))

/-- Python truthiness of a parsed JSON value: `None`, `False`, `0`, the empty
string, the empty list and the empty dict are falsy, everything else truthy. -/
def Json.truthy : Json → Bool
  | .null => false
  | .bool b => b
  | .num n => n != 0
  | .str s => s != ""
  | .arr xs => !xs.isEmpty
  | .obj fs => !fs.isEmpty

/-- Python `isinstance(x, dict)`. -/
def Json.isObj : Json → Bool
  | .obj _ => true
  | _ => false

/-- Python `dict.get k` on the fields of a dict: the binding of `k`, or
`None` when absent. -/
def dictGet (fields : List (String × Json)) (k : String) : Option Json :=
  fields.lookup k

/-- Escaping applied by `json.dumps` to one character of a string (the
claims only exercise the quote and backslash escapes). -/
def jsonEscapeChar (c : Char) : String :=
  if c = '\\' then "\\\\"
  else if c = '\"' then "\\\""
  else String.singleton c

/-- Escaping applied by `json.dumps` to a string body. -/
def jsonEscape (s : String) : String :=
  String.join (s.toList.map jsonEscapeChar)

mutual

/-- Python `json.dumps` with its default separators, as called at line 78 of
`app.py` on `menu_data.get('menu_items', [])`. -/
def json_dumps : Json → String
  | .null => "null"
  | .bool true => "true"
  | .bool false => "false"
  | .num n => toString n
  | .str s => "\"" ++ jsonEscape s ++ "\""
  | .arr xs => "[" ++ json_dumpsList xs ++ "]"
  | .obj fs => "\x7b" ++ json_dumpsObj fs ++ "\x7d"

/-- `json.dumps` of the elements of a list, joined by ", ". -/
def json_dumpsList : List Json → String
  | [] => ""
  | [x] => json_dumps x
  | x :: y :: xs => json_dumps x ++ ", " ++ json_dumpsList (y :: xs)

/-- `json.dumps` of the bindings of a dict, joined by ", ". -/
def json_dumpsObj : List (String × Json) → String
  | [] => ""
  | [(k, v)] => "\"" ++ jsonEscape k ++ "\": " ++ json_dumps v
  | (k, v) :: kv :: fs =>
    "\"" ++ jsonEscape k ++ "\": " ++ json_dumps v ++ ", " ++ json_dumpsObj (kv :: fs)

end

mutual

/-- Python `repr` of a parsed JSON value. -/
def pyRepr : Json → String
  | .null => "None"
  | .bool true => "True"
  | .bool false => "False"
  | .num n => toString n
  | .str s => "\'" ++ s ++ "\'"
  | .arr xs => "[" ++ pyReprList xs ++ "]"
  | .obj fs => "\x7b" ++ pyReprObj fs ++ "\x7d"

/-- `repr` of the elements of a list, joined by ", ". -/
def pyReprList : List Json → String
  | [] => ""
  | [x] => pyRepr x
  | x :: y :: xs => pyRepr x ++ ", " ++ pyReprList (y :: xs)

/-- `repr` of the bindings of a dict, joined by ", ". -/
def pyReprObj : List (String × Json) → String
  | [] => ""
  | [(k, v)] => "\'" ++ k ++ "\': " ++ pyRepr v
  | (k, v) :: kv :: fs => "\'" ++ k ++ "\': " ++ pyRepr v ++ ", " ++ pyReprObj (kv :: fs)

end

/-- Python `str` as applied by f-string interpolation at line 72 of
`app.py`: a string interpolates verbatim, anything else through `repr`. -/
def pyStr : Json → String
  | .str s => s
  | j => pyRepr j

/-- The whitespace characters removed by Python `str.strip()`. -/
def pyIsSpace (c : Char) : Bool :=
  c = ' ' || c = '\t' || c = '\n' || c = '\r' || c = '\x0b' || c = '\x0c'

/-- Python `str.strip()`: remove leading and trailing whitespace. -/
def pyStrip (s : String) : String :=
  String.mk (((s.data.dropWhile pyIsSpace).reverse.dropWhile pyIsSpace).reverse)

/-- One chat message dict, with a `role` tag and a `content` body. -/
structure Msg where
  role : String
  content : String
deriving DecidableEq

/-- The observable state of `menus/<slug>.json`: absent, present but not
valid JSON, or parsed content. -/
inductive MenuFile where
  | missing
  | malformed
  | parsed (j : Json)

/-- Lines 23-35 of `app.py`: load the menu JSON for `restaurant_name` from
the filesystem oracle `fs`. An absent file yields `None`; a file that does
not parse yields an error dict. -/
def load_menu_data (fs : String → MenuFile) (restaurant_name : String) : Option Json :=
  match fs restaurant_name with
  | .missing => none
  | .malformed =>
    some (.obj [("error",
      .str ("Menu file for \'" ++ restaurant_name ++ "\' is not valid JSON."))])
  | .parsed j => some j

/-- Result of `GET /` (lines 38-50): an error body with its HTTP status, or
the rendered `index.html` template scoped to the restaurant. -/
inductive IndexResult where
  | err (body : Json) (status : Nat)
  | page (restaurant_name : String)

/-- The HTTP status of a `GET /` result (a rendered template is 200). -/
def IndexResult.status : IndexResult → Nat
  | .err _ s => s
  | .page _ => 200

/-- Lines 38-50 of `app.py`: the `GET /` handler, given the filesystem and
the optional `restaurant` query parameter. -/
def index (fs : String → MenuFile) (query_restaurant : Option String) : IndexResult :=
  match query_restaurant with
  | none =>
    .err (.str "Please specify a restaurant in the URL, e.g., ?restaurant=joes_grill") 400
  | some restaurant_name =>
    if restaurant_name = "" then
      .err (.str "Please specify a restaurant in the URL, e.g., ?restaurant=joes_grill") 400
    else
      match load_menu_data fs restaurant_name with
      | none =>
        .err (.str ("Menu for restaurant \'" ++ restaurant_name ++ "\' not found.")) 404
      | some menu_data =>
        if menu_data.truthy = false then
          .err (.str ("Menu for restaurant \'" ++ restaurant_name ++ "\' not found.")) 404
        else
          match menu_data with
          | .obj fields =>
            match dictGet fields "error" with
            | some v => if v.truthy then .err v 500 else .page restaurant_name
            | none => .page restaurant_name
          | _ => .page restaurant_name

/-- A parsed `POST /chat` request: the JSON body's optional `message` and
`restaurant` fields, and the query-string `restaurant` parameter. -/
structure ChatReq where
  body_message : Option String
  body_restaurant : Option String
  query_restaurant : Option String

/-- Line 55 of `app.py`: `request.json.get("restaurant") or
request.args.get("restaurant")`. Python `or` lets an absent or empty body
value fall through to the query parameter. -/
def restaurant_of (req : ChatReq) : Option String :=
  match req.body_restaurant with
  | some s => if s = "" then req.query_restaurant else some s
  | none => req.query_restaurant

/-- Outcome of the external completion call at lines 94-101: the content of
the first choice, or the text of the exception the call raised. -/
inductive Completion where
  | ok (reply : String)
  | exn (e : String)

/-- Lines 93-103 of `app.py`: the reply string the handler ends up with — the
service's text on success, the synthesized error string on failure. -/
def Completion.replyText : Completion → String
  | .ok r => r
  | .exn e => "Error contacting OpenAI API: " ++ e

/-- Result of the `POST /chat` handler: a `jsonify(\x7b"reply": r\x7d)` body with
its HTTP status and the resulting session, or an uncaught exception (a menu
JSON that is truthy but not a dict reaches `menu_data.get` at line 72 and
raises `AttributeError`). -/
inductive ChatResult where
  | resp (reply : Json) (status : Nat) (sess : Option (List Msg))
  | raised (sess : Option (List Msg))

/-- The HTTP status of a chat result (Flask turns an uncaught exception into
a 500). -/
def ChatResult.status : ChatResult → Nat
  | .resp _ s _ => s
  | .raised _ => 500

/-- The session state after a chat result. -/
def ChatResult.session : ChatResult → Option (List Msg)
  | .resp _ _ s => s
  | .raised s => s

/-- Lines 71-85 of `app.py`: the grounding system prompt, given the
interpolated display name and the `json.dumps` of the menu items. -/
def system_prompt (display dumped : String) : String :=
  "\nYou are the official menu assistant for " ++ display ++ ".\n" ++
  "Use ONLY the provided menu JSON to answer questions about items, ingredients, allergens, prices, and dietary tags.\n" ++
  "If the user asks about an item not in the JSON, say it\'s not on this menu and suggest close matches from the menu.\n" ++
  "If the question is ambiguous, ask one brief clarifying question.\n" ++
  "\n" ++
  "Menu JSON (authoritative source):\n" ++
  dumped ++ "\n" ++
  "\n" ++
  "Rules:\n" ++
  "- Never invent menu items or details not present in the JSON.\n" ++
  "- For general/menu-wide questions: give a short summary and suggest relevant sections or popular items.\n" ++
  "- For specific items: return clear ingredients, allergen flags, and dietary notes in 1â€“3 concise sentences.\n" ++
  "- Keep replies under 120 words unless the user explicitly asks for more detail.\n"

/-- The system prompt for a menu dict `fields` and slug `restaurant_name`:
`menu_data.get('restaurant_name', restaurant_name)` interpolated through
`str`, and `json.dumps(menu_data.get('menu_items', []))`. -/
def chat_system_prompt (fields : List (String × Json)) (restaurant_name : String) : String :=
  system_prompt
    (pyStr ((dictGet fields "restaurant_name").getD (.str restaurant_name)))
    (json_dumps ((dictGet fields "menu_items").getD (.arr [])))

/-- Lines 87-91 of `app.py`: the message list sent to the completion
service — the system prompt, then the prior turns, then the new user turn. -/
def build_messages (sysPrompt : String) (history : List Msg) (user_input : String) : List Msg :=
  ⟨"system", sysPrompt⟩ :: (history ++ [⟨"user", user_input⟩])

/-- Lines 93-110 of `app.py`: call the completion service, fall back to the
error string on an exception, append the user and assistant turns to the
session history, and answer 200. -/
def finish_chat (history : List Msg) (user_input : String) (out : Completion) : ChatResult :=
  .resp (.str out.replyText) 200
    (some (history ++ [⟨"user", user_input⟩, ⟨"assistant", out.replyText⟩]))

/-- Lines 66-110 of the chat handler once a truthy non-error menu dict is in
hand: initialize the history if absent, build the prompt and the message
list, call the completion oracle, append both turns. -/
def chat_with_menu (completion : List Msg → Completion) (sess : Option (List Msg))
    (fields : List (String × Json)) (restaurant_name user_input : String) : ChatResult :=
  finish_chat (sess.getD []) user_input
    (completion (build_messages (chat_system_prompt fields restaurant_name)
      (sess.getD []) user_input))

/-- Lines 52-110 of `app.py`: the `POST /chat` handler, given the filesystem
and completion oracles, the session and the request. -/
def chat (fs : String → MenuFile) (completion : List Msg → Completion)
    (sess : Option (List Msg)) (req : ChatReq) : ChatResult :=
  let user_input := pyStrip (req.body_message.getD "")
  match restaurant_of req with
  | none => .resp (.str "Restaurant not specified in request.") 400 sess
  | some restaurant_name =>
    if restaurant_name = "" then
      .resp (.str "Restaurant not specified in request.") 400 sess
    else
      match load_menu_data fs restaurant_name with
      | none =>
        .resp (.str ("Menu for restaurant \'" ++ restaurant_name ++ "\' not found.")) 404 sess
      | some menu_data =>
        if menu_data.truthy = false then
          .resp (.str ("Menu for restaurant \'" ++ restaurant_name ++ "\' not found.")) 404 sess
        else
          match menu_data with
          | .obj fields =>
            match dictGet fields "error" with
            | some v =>
              if v.truthy then .resp v 500 sess
              else chat_with_menu completion sess fields restaurant_name user_input
            | none => chat_with_menu completion sess fields restaurant_name user_input
          | _ => .raised (some (sess.getD []))

/-- Lines 112-115 of `app.py`: the `POST /clear` handler —
`session.pop("history", None)` and a fixed acknowledgement. -/
def clear (_sess : Option (List Msg)) : Json × Nat × Option (List Msg) :=
  (.obj [("status", .str "cleared")], 200, none)

/-- Lines 117-119 of `app.py`: the `GET /healthz` handler — a fixed body and
status, the session untouched. -/
def healthz (sess : Option (List Msg)) : (String × Nat) × Option (List Msg) :=
  (("ok", 200), sess)

/-- `n` consecutive invocations of `healthz`, threading the session. -/
def healthzIter : Nat → Option (List Msg) → Option (List Msg)
  | 0, sess => sess
  | n + 1, sess => healthzIter n (healthz sess).2

/-- A chat request that passes every guard of the handler and reaches the
completion call at line 94: a nonempty restaurant name whose menu file loads
to a truthy dict without a truthy `"error"` binding. -/
def reaches (fs : String → MenuFile) (req : ChatReq) : Bool :=
  match restaurant_of req with
  | none => false
  | some restaurant_name =>
    (restaurant_name != "") &&
    match load_menu_data fs restaurant_name with
    | none => false
    | some (.obj fields) =>
      (Json.obj fields).truthy &&
      (match dictGet fields "error" with
       | some v => !v.truthy
       | none => true)
    | some _ => false

/-- A sequence of `POST /chat` requests handled in order, threading the
session from each turn into the next. -/
def runChats (fs : String → MenuFile) (completion : List Msg → Completion)
    (sess : Option (List Msg)) : List ChatReq → Option (List Msg)
  | [] => sess
  | req :: reqs => runChats fs completion ((chat fs completion sess req).session) reqs

/-- The parsed Caesar Salad menu of the spec's scenario, used as a fixture. -/
def menuEx : List (String × Json) :=
  [("restaurant_name", .str "Joe\'s Grill"),
   ("menu_items", .arr [.obj [("name", .str "Caesar Salad"),
     ("allergens", .arr [.str "dairy"])]])]

/-- A concrete filesystem fixture: the slug "joes_grill" carries the valid
menu of the spec's scenario, every other slug is absent. -/
def fsEx : String → MenuFile := fun slug =>
  if slug = "joes_grill" then .parsed (.obj menuEx) else .missing

/-- A filesystem fixture whose only menu parses to the empty dict. -/
def fsFalsy : String → MenuFile := fun slug =>
  if slug = "joes_grill" then .parsed (.obj []) else .missing

/-- A filesystem fixture whose only menu parses to a dict with a truthy
"error" binding. -/
def fsErr : String → MenuFile := fun slug =>
  if slug = "joes_grill" then .parsed (.obj [("error", .str "bad menu")])
  else .missing

/-- A filesystem fixture where the menu file of "joes_grill" exists but is
not valid JSON. -/
def fsBad : String → MenuFile := fun slug =>
  if slug = "joes_grill" then .malformed else .missing

/-- A completion oracle that always succeeds with the reply "hi". -/
def compOk : List Msg → Completion := fun _ => .ok "hi"

/-- A completion oracle that always raises with exception text "boom". -/
def compFail : List Msg → Completion := fun _ => .exn "boom"

/-- Helper: the handler on a request that reaches the completion call equals
`chat_with_menu` on the stripped user input. -/
theorem chat_reaches_eq (fs : String → MenuFile) (completion : List Msg → Completion)
    (sess : Option (List Msg)) (req : ChatReq) (restaurant_name : String)
    (fields : List (String × Json))
    (hname : restaurant_of req = some restaurant_name)
    (hne : restaurant_name ≠ "")
    (hload : load_menu_data fs restaurant_name = some (.obj fields))
    (hfields : fields.isEmpty = false)
    (herr : ∀ v, dictGet fields "error" = some v → v.truthy = false) :
    chat fs completion sess req =
      chat_with_menu completion sess fields restaurant_name
        (pyStrip (req.body_message.getD "")) := by
  have hT : (Json.obj fields).truthy = true := by simp [Json.truthy, hfields]
  unfold chat
  rw [hname]
  simp only [hne, if_false, hload, hT, Bool.true_eq_false, if_neg, ite_false]
  cases hv : dictGet fields "error" with
  | none => simp
  | some v => simp [herr v hv]

/-- Helper: unpack the `reaches` guard into its components. -/
theorem reaches_elim (fs : String → MenuFile) (req : ChatReq)
    (h : reaches fs req = true) :
    ∃ restaurant_name fields, restaurant_of req = some restaurant_name ∧
      restaurant_name ≠ "" ∧
      load_menu_data fs restaurant_name = some (.obj fields) ∧
      fields.isEmpty = false ∧
      ∀ v, dictGet fields "error" = some v → v.truthy = false := by
  unfold reaches at h
  split at h
  · exact absurd h (by simp)
  · rename_i restaurant_name hname
    rw [Bool.and_eq_true] at h
    obtain ⟨h1, h2⟩ := h
    split at h2
    · exact absurd h2 (by simp)
    · rename_i fields hload
      rw [Bool.and_eq_true] at h2
      obtain ⟨h3, h4⟩ := h2
      refine ⟨restaurant_name, fields, hname, by simpa using h1, hload, ?_, ?_⟩
      · simpa [Json.truthy] using h3
      · intro v hv
        rw [hv] at h4
        simpa using h4
    · exact absurd h2 (by simp)

/-- Helper: one reaching chat turn answers 200 and appends exactly the user
turn then the assistant turn to the history. -/
theorem chat_of_reaches (fs : String → MenuFile) (completion : List Msg → Completion)
    (sess : Option (List Msg)) (req : ChatReq) (h : reaches fs req = true) :
    ∃ r, chat fs completion sess req =
      .resp (.str r) 200 (some ((sess.getD []) ++
        [⟨"user", pyStrip (req.body_message.getD "")⟩, ⟨"assistant", r⟩])) := by
  obtain ⟨restaurant_name, fields, h1, h2, h3, h4, h5⟩ := reaches_elim fs req h
  rw [chat_reaches_eq fs completion sess req restaurant_name fields h1 h2 h3 h4 h5]
  exact ⟨_, rfl⟩

/-- Helper: `N` reaching chat turns starting from history `h0` end with a
history of length `h0.length + 2 N`. -/
theorem runChats_length (fs : String → MenuFile) (completion : List Msg → Completion)
    (reqs : List ChatReq) :
    ∀ h0 : List Msg, (∀ req ∈ reqs, reaches fs req = true) →
      ∃ h, runChats fs completion (some h0) reqs = some h ∧
        h.length = h0.length + 2 * reqs.length := by
  induction reqs with
  | nil => exact fun h0 _ => ⟨h0, rfl, by simp⟩
  | cons req reqs ih =>
    intro h0 hall
    obtain ⟨r, hr⟩ :=
      chat_of_reaches fs completion (some h0) req (hall req (List.mem_cons_self _ _))
    obtain ⟨h, hh, hlen⟩ :=
      ih (h0 ++ [⟨"user", pyStrip (req.body_message.getD "")⟩, ⟨"assistant", r⟩])
        (fun q hq => hall q (List.mem_cons_of_mem _ hq))
    refine ⟨h, ?_, ?_⟩
    · simp only [runChats, hr, ChatResult.session]
      exact hh
    · rw [hlen]
      simp [List.length_append]
      omega

/-- Helper: with no restaurant in the body or the query the handler answers
400 and the session is returned untouched. -/
theorem chat_400_helper (fs : String → MenuFile) (completion : List Msg → Completion)
    (sess : Option (List Msg)) (bm : Option String) :
    chat fs completion sess ⟨bm, none, none⟩ =
      .resp (.str "Restaurant not specified in request.") 400 sess := rfl

/-- Helper: the system prompt contains the interpolated display name and the
serialized menu items as substrings. -/
theorem system_prompt_embeds (display dumped : String) :
    (∃ pre post, system_prompt display dumped = pre ++ display ++ post) ∧
    (∃ pre post, system_prompt display dumped = pre ++ dumped ++ post) := by
  constructor
  · refine ⟨"\nYou are the official menu assistant for ",
      ".\n" ++
      "Use ONLY the provided menu JSON to answer questions about items, ingredients, allergens, prices, and dietary tags.\n" ++
      "If the user asks about an item not in the JSON, say it\'s not on this menu and suggest close matches from the menu.\n" ++
      "If the question is ambiguous, ask one brief clarifying question.\n" ++
      "\n" ++
      "Menu JSON (authoritative source):\n" ++
      dumped ++ "\n" ++
      "\n" ++
      "Rules:\n" ++
      "- Never invent menu items or details not present in the JSON.\n" ++
      "- For general/menu-wide questions: give a short summary and suggest relevant sections or popular items.\n" ++
      "- For specific items: return clear ingredients, allergen flags, and dietary notes in 1â€“3 concise sentences.\n" ++
      "- Keep replies under 120 words unless the user explicitly asks for more detail.\n", ?_⟩
    unfold system_prompt
    simp only [String.append_assoc]
  · refine ⟨"\nYou are the official menu assistant for " ++ display ++ ".\n" ++
      "Use ONLY the provided menu JSON to answer questions about items, ingredients, allergens, prices, and dietary tags.\n" ++
      "If the user asks about an item not in the JSON, say it\'s not on this menu and suggest close matches from the menu.\n" ++
      "If the question is ambiguous, ask one brief clarifying question.\n" ++
      "\n" ++
      "Menu JSON (authoritative source):\n",
      "\n" ++
      "\n" ++
      "Rules:\n" ++
      "- Never invent menu items or details not present in the JSON.\n" ++
      "- For general/menu-wide questions: give a short summary and suggest relevant sections or popular items.\n" ++
      "- For specific items: return clear ingredients, allergen flags, and dietary notes in 1â€“3 concise sentences.\n" ++
      "- Keep replies under 120 words unless the user explicitly asks for more detail.\n", ?_⟩
    unfold system_prompt
    simp only [String.append_assoc]

/-- C1: for every chat request that reaches the completion call, a failing
external call does not raise: the handler answers HTTP 200 with the reply
"Error contacting OpenAI API: <details>", and that same string is appended
to the session history as the assistant turn. -/
theorem chat_completion_failure_is_normal_reply (fs : String → MenuFile)
    (completion : List Msg → Completion) (e : String)
    (sess : Option (List Msg)) (req : ChatReq)
    (hreach : reaches fs req = true)
    (hfail : ∀ msgs, completion msgs = .exn e) :
    chat fs completion sess req =
      .resp (.str ("Error contacting OpenAI API: " ++ e)) 200
        (some ((sess.getD []) ++
          [⟨"user", pyStrip (req.body_message.getD "")⟩,
           ⟨"assistant", "Error contacting OpenAI API: " ++ e⟩])) := by
  obtain ⟨restaurant_name, fields, h1, h2, h3, h4, h5⟩ := reaches_elim fs req hreach
  rw [chat_reaches_eq fs completion sess req restaurant_name fields h1 h2 h3 h4 h5]
  unfold chat_with_menu finish_chat
  rw [hfail]
  rfl

/-- C1 witness: a concrete valid menu and a service that always raises. -/
theorem chat_completion_failure_is_normal_reply_witness :
    chat fsEx compFail (some []) ⟨some "hello", some "joes_grill", none⟩ =
      .resp (.str ("Error contacting OpenAI API: " ++ "boom")) 200
        (some (([] : List Msg) ++
          [⟨"user", pyStrip ((some "hello").getD "")⟩,
           ⟨"assistant", "Error contacting OpenAI API: " ++ "boom"⟩])) :=
  chat_completion_failure_is_normal_reply fsEx compFail "boom" (some [])
    ⟨some "hello", some "joes_grill", none⟩ rfl (fun _ => rfl)

/-- C2: for every valid chat request, the list handed to the completion
service is exactly one leading system message, then every prior turn in its
original order, then exactly one user message carrying the new input; the
system text embeds the restaurant display name and the serialized menu
items. -/
theorem chat_messages_structure (fs : String → MenuFile) (completion : List Msg → Completion)
    (sess : Option (List Msg)) (req : ChatReq) (restaurant_name : String)
    (fields : List (String × Json))
    (hname : restaurant_of req = some restaurant_name)
    (hne : restaurant_name ≠ "")
    (hload : load_menu_data fs restaurant_name = some (.obj fields))
    (hfields : fields.isEmpty = false)
    (herr : ∀ v, dictGet fields "error" = some v → v.truthy = false) :
    chat fs completion sess req =
      finish_chat (sess.getD []) (pyStrip (req.body_message.getD ""))
        (completion (build_messages (chat_system_prompt fields restaurant_name)
          (sess.getD []) (pyStrip (req.body_message.getD "")))) ∧
    build_messages (chat_system_prompt fields restaurant_name) (sess.getD [])
        (pyStrip (req.body_message.getD "")) =
      ⟨"system", chat_system_prompt fields restaurant_name⟩ ::
        ((sess.getD []) ++ [⟨"user", pyStrip (req.body_message.getD "")⟩]) ∧
    ((∀ m ∈ sess.getD [], m.role ≠ "system") →
      (List.filter (fun m => m.role == "system")
        (build_messages (chat_system_prompt fields restaurant_name) (sess.getD [])
          (pyStrip (req.body_message.getD "")))).length = 1) ∧
    ((∀ m ∈ sess.getD [], m.role ≠ "user") →
      (List.filter (fun m => m.role == "user")
        (build_messages (chat_system_prompt fields restaurant_name) (sess.getD [])
          (pyStrip (req.body_message.getD "")))).length = 1) ∧
    (∃ pre post, chat_system_prompt fields restaurant_name =
      pre ++ pyStr ((dictGet fields "restaurant_name").getD (.str restaurant_name)) ++ post) ∧
    (∃ pre post, chat_system_prompt fields restaurant_name =
      pre ++ json_dumps ((dictGet fields "menu_items").getD (.arr [])) ++ post) := by
  refine ⟨chat_reaches_eq fs completion sess req restaurant_name fields hname hne hload hfields herr,
    rfl, ?_, ?_, (system_prompt_embeds _ _).1, (system_prompt_embeds _ _).2⟩
  · intro hroles
    have hnil : (sess.getD []).filter (fun m => m.role == "system") = [] :=
      List.filter_eq_nil_iff.mpr (fun m hm => by simp [hroles m hm])
    simp [build_messages, List.filter_append, hnil, List.filter]
  · intro hroles
    have hnil : (sess.getD []).filter (fun m => m.role == "user") = [] :=
      List.filter_eq_nil_iff.mpr (fun m hm => by simp [hroles m hm])
    simp [build_messages, List.filter_append, hnil, List.filter]

/-- Helper: with a nonempty slug in the body, the restaurant resolves to it. -/
theorem restaurant_of_body (bm : Option String) (slug : String) (hne : slug ≠ "") :
    restaurant_of ⟨bm, some slug, none⟩ = some slug := by
  simp [restaurant_of, hne]

/-- Helper: the not-valid-JSON message is a truthy (nonempty) string. -/
theorem invalid_msg_truthy (slug : String) :
    (Json.str ("Menu file for \'" ++ slug ++ "\' is not valid JSON.")).truthy = true := by
  simp only [Json.truthy, bne_iff_ne, ne_eq]
  intro hc
  have := congrArg String.data hc
  simp at this

/-- Helper: menu file absent — the chat handler answers 404, session
untouched. -/
theorem chat_missing_404 (fs : String → MenuFile) (completion : List Msg → Completion)
    (sess : Option (List Msg)) (req : ChatReq) (restaurant_name : String)
    (hname : restaurant_of req = some restaurant_name) (hne : restaurant_name ≠ "")
    (hmiss : load_menu_data fs restaurant_name = none) :
    chat fs completion sess req =
      .resp (.str ("Menu for restaurant \'" ++ restaurant_name ++ "\' not found.")) 404 sess := by
  unfold chat
  rw [hname]
  simp [hne, hmiss]

/-- Helper: menu parses to a falsy value — the chat handler answers 404,
session untouched. -/
theorem chat_falsy_404 (fs : String → MenuFile) (completion : List Msg → Completion)
    (sess : Option (List Msg)) (req : ChatReq) (restaurant_name : String) (j : Json)
    (hname : restaurant_of req = some restaurant_name) (hne : restaurant_name ≠ "")
    (hload : load_menu_data fs restaurant_name = some j) (hfalsy : j.truthy = false) :
    chat fs completion sess req =
      .resp (.str ("Menu for restaurant \'" ++ restaurant_name ++ "\' not found.")) 404 sess := by
  unfold chat
  rw [hname]
  simp [hne, hload, hfalsy]

/-- Helper: a parsed dict with a truthy error binding — the chat handler
answers 500 with the error value, session untouched. -/
theorem chat_error_500 (fs : String → MenuFile) (completion : List Msg → Completion)
    (sess : Option (List Msg)) (req : ChatReq) (restaurant_name : String)
    (fields : List (String × Json)) (v : Json)
    (hname : restaurant_of req = some restaurant_name) (hne : restaurant_name ≠ "")
    (hload : load_menu_data fs restaurant_name = some (.obj fields))
    (hv : dictGet fields "error" = some v) (htr : v.truthy = true) :
    chat fs completion sess req = .resp v 500 sess := by
  have hT : (Json.obj fields).truthy = true := by
    cases fields with
    | nil => simp [dictGet] at hv
    | cons kv l => simp [Json.truthy]
  unfold chat
  rw [hname]
  simp [hne, hload, hT, hv, htr]

/-- Helper: menu file absent — GET / answers 404. -/
theorem index_missing_404 (fs : String → MenuFile) (slug : String)
    (hne : slug ≠ "") (hmiss : load_menu_data fs slug = none) :
    index fs (some slug) =
      .err (.str ("Menu for restaurant \'" ++ slug ++ "\' not found.")) 404 := by
  simp [index, hne, hmiss]

/-- Helper: menu parses to a falsy value — GET / answers 404. -/
theorem index_falsy_404 (fs : String → MenuFile) (slug : String) (j : Json)
    (hne : slug ≠ "") (hload : load_menu_data fs slug = some j)
    (hfalsy : j.truthy = false) :
    index fs (some slug) =
      .err (.str ("Menu for restaurant \'" ++ slug ++ "\' not found.")) 404 := by
  simp [index, hne, hload, hfalsy]

/-- Helper: a parsed dict with a truthy error binding — GET / answers 500
with the error value. -/
theorem index_error_500 (fs : String → MenuFile) (slug : String)
    (fields : List (String × Json)) (v : Json)
    (hne : slug ≠ "") (hload : load_menu_data fs slug = some (.obj fields))
    (hv : dictGet fields "error" = some v) (htr : v.truthy = true) :
    index fs (some slug) = .err v 500 := by
  have hT : (Json.obj fields).truthy = true := by
    cases fields with
    | nil => simp [dictGet] at hv
    | cons kv l => simp [Json.truthy]
  simp [index, hne, hload, hT, hv, htr]

/-- C3: a slug whose menu file is absent gets 404 with the menu-not-found
message from both GET / and POST /chat; a slug whose file is present but
not valid JSON gets 500 from both; a request with no restaurant parameter
gets 400 from both. -/
theorem menu_resolution_http_statuses (fs : String → MenuFile)
    (completion : List Msg → Completion) (sess : Option (List Msg))
    (slug : String) (bm : Option String) (hne : slug ≠ "") :
    (fs slug = .missing →
      index fs (some slug) =
        .err (.str ("Menu for restaurant \'" ++ slug ++ "\' not found.")) 404 ∧
      chat fs completion sess ⟨bm, some slug, none⟩ =
        .resp (.str ("Menu for restaurant \'" ++ slug ++ "\' not found.")) 404 sess) ∧
    (fs slug = .malformed →
      index fs (some slug) =
        .err (.str ("Menu file for \'" ++ slug ++ "\' is not valid JSON.")) 500 ∧
      chat fs completion sess ⟨bm, some slug, none⟩ =
        .resp (.str ("Menu file for \'" ++ slug ++ "\' is not valid JSON.")) 500 sess) ∧
    (index fs none).status = 400 ∧
    (chat fs completion sess ⟨bm, none, none⟩).status = 400 := by
  refine ⟨?_, ?_, rfl, ?_⟩
  · intro hmiss
    have hload : load_menu_data fs slug = none := by
      unfold load_menu_data
      rw [hmiss]
    exact ⟨index_missing_404 fs slug hne hload,
      chat_missing_404 fs completion sess _ slug (restaurant_of_body bm slug hne) hne hload⟩
  · intro hmal
    have hload : load_menu_data fs slug =
        some (.obj [("error",
          .str ("Menu file for \'" ++ slug ++ "\' is not valid JSON."))]) := by
      unfold load_menu_data
      rw [hmal]
    exact ⟨index_error_500 fs slug _ _ hne hload rfl (invalid_msg_truthy slug),
      chat_error_500 fs completion sess _ slug _ _ (restaurant_of_body bm slug hne) hne
        hload rfl (invalid_msg_truthy slug)⟩
  · rw [chat_400_helper]
    rfl

/-- C3 witness: concrete missing, malformed and absent-parameter cases. -/
theorem menu_resolution_http_statuses_witness :
    (index fsEx (some "nope") =
      .err (.str ("Menu for restaurant \'" ++ "nope" ++ "\' not found.")) 404) ∧
    (index fsBad (some "joes_grill") =
      .err (.str ("Menu file for \'" ++ "joes_grill" ++ "\' is not valid JSON.")) 500) ∧
    (chat fsEx compOk (some []) ⟨some "m", none, none⟩).status = 400 :=
  ⟨((menu_resolution_http_statuses fsEx compOk (some []) "nope" (some "m")
      (by decide)).1 rfl).1,
   ((menu_resolution_http_statuses fsBad compOk (some []) "joes_grill" (some "m")
      (by decide)).2.1 rfl).1,
   (menu_resolution_http_statuses fsEx compOk (some []) "x" (some "m")
      (by decide)).2.2.2⟩

/-- C4: every reaching chat turn answers 200 and appends the user turn then
the assistant turn (carrying the completion call's result) to the history,
and `N` reaching turns from an empty session leave a history of length
exactly `2 N`. -/
theorem chat_history_pairs (fs : String → MenuFile) (completion : List Msg → Completion) :
    (∀ sess req, reaches fs req = true →
      ∃ r, chat fs completion sess req =
        .resp (.str r) 200 (some ((sess.getD []) ++
          [⟨"user", pyStrip (req.body_message.getD "")⟩, ⟨"assistant", r⟩]))) ∧
    (∀ reqs : List ChatReq, (∀ req ∈ reqs, reaches fs req = true) →
      ∃ h, runChats fs completion (some []) reqs = some h ∧
        h.length = 2 * reqs.length) := by
  refine ⟨chat_of_reaches fs completion, fun reqs hall => ?_⟩
  obtain ⟨h, hh, hlen⟩ := runChats_length fs completion reqs [] hall
  exact ⟨h, hh, by simpa using hlen⟩

/-- C4 witness: two concrete reaching turns leave a history of length four. -/
theorem chat_history_pairs_witness :
    ∃ h, runChats fsEx compOk (some [])
        [⟨some "a", some "joes_grill", none⟩, ⟨some "b", some "joes_grill", none⟩] =
      some h ∧ h.length = 2 * 2 :=
  (chat_history_pairs fsEx compOk).2 _
    (by intro req hreq; simp at hreq; rcases hreq with rfl | rfl <;> rfl)

/-- C5 counterexample: the code does not require the message field — a POST
/chat body with no "message" at all is not rejected; with a valid menu it
reaches the completion call and answers 200, the user turn recorded as the
empty string. -/
theorem chat_missing_message_not_rejected :
    chat fsEx compOk (some []) ⟨none, some "joes_grill", none⟩ =
      .resp (.str "hi") 200 (some [⟨"user", ""⟩, ⟨"assistant", "hi"⟩]) := rfl

/-- C5 amended: only the restaurant is required — its absence is a terminal
400 validation failure before menu resolution — while an absent message is
coerced to the empty string and the request proceeds to the completion
call. -/
theorem chat_only_restaurant_required (fs : String → MenuFile)
    (completion : List Msg → Completion) (sess : Option (List Msg))
    (bm : Option String) (req : ChatReq)
    (hmsg : req.body_message = none) (hreach : reaches fs req = true) :
    chat fs completion sess ⟨bm, none, none⟩ =
      .resp (.str "Restaurant not specified in request.") 400 sess ∧
    ∃ r, chat fs completion sess req =
      .resp (.str r) 200
        (some ((sess.getD []) ++ [⟨"user", ""⟩, ⟨"assistant", r⟩])) := by
  refine ⟨chat_400_helper fs completion sess bm, ?_⟩
  obtain ⟨r, hr⟩ := chat_of_reaches fs completion sess req hreach
  rw [hmsg] at hr
  exact ⟨r, hr⟩

/-- C5 amended witness. -/
theorem chat_only_restaurant_required_witness :
    chat fsEx compOk (some []) ⟨some "m", none, none⟩ =
      .resp (.str "Restaurant not specified in request.") 400 (some []) ∧
    ∃ r, chat fsEx compOk (some []) ⟨none, some "joes_grill", none⟩ =
      .resp (.str r) 200
        (some (([] : List Msg) ++ [⟨"user", ""⟩, ⟨"assistant", r⟩])) :=
  chat_only_restaurant_required fsEx compOk (some []) (some "m")
    ⟨none, some "joes_grill", none⟩ rfl rfl

/-- C6: clear removes the whole history — the session key is gone and a
subsequent read gives the empty sequence — and one reaching chat turn right
after a clear leaves a history of length exactly two, whatever was stored
before the clear. -/
theorem clear_then_chat_history_two (fs : String → MenuFile)
    (completion : List Msg → Completion) :
    (∀ sess, (clear sess).2.2 = none ∧ ((clear sess).2.2).getD ([] : List Msg) = []) ∧
    (∀ sess req, reaches fs req = true →
      ∃ r, chat fs completion (clear sess).2.2 req =
        .resp (.str r) 200
          (some [⟨"user", pyStrip (req.body_message.getD "")⟩, ⟨"assistant", r⟩])) := by
  refine ⟨fun _ => ⟨rfl, rfl⟩, fun sess req h => ?_⟩
  obtain ⟨r, hr⟩ := chat_of_reaches fs completion (clear sess).2.2 req h
  exact ⟨r, hr⟩

/-- C6 witness: a clear wiping two prior turns, then one chat turn. -/
theorem clear_then_chat_history_two_witness :
    ∃ r, chat fsEx compOk
        (clear (some [⟨"user", "old"⟩, ⟨"assistant", "old reply"⟩])).2.2
        ⟨some "hello", some "joes_grill", none⟩ =
      .resp (.str r) 200 (some [⟨"user", "hello"⟩, ⟨"assistant", r⟩]) :=
  (clear_then_chat_history_two fsEx compOk).2
    (some [⟨"user", "old"⟩, ⟨"assistant", "old reply"⟩])
    ⟨some "hello", some "joes_grill", none⟩ rfl

/-- C7: a POST /chat with the restaurant absent from both the body and the
query answers 400 with the not-specified reply and leaves the session
history exactly as it was. -/
theorem chat_missing_restaurant_400_no_mutation (fs : String → MenuFile)
    (completion : List Msg → Completion) (sess : Option (List Msg))
    (bm : Option String) :
    chat fs completion sess ⟨bm, none, none⟩ =
      .resp (.str "Restaurant not specified in request.") 400 sess :=
  chat_400_helper fs completion sess bm

/-- C8: GET /healthz is deterministic and state-independent — on any session
it answers the fixed body "ok" with status 200 and leaves the session
untouched — and idempotent: any number of consecutive invocations leaves
the session unchanged. -/
theorem healthz_fixed_idempotent :
    (∀ sess, healthz sess = (("ok", 200), sess)) ∧
    (∀ n sess, healthzIter n sess = sess) := by
  refine ⟨fun _ => rfl, fun n => ?_⟩
  induction n with
  | zero => exact fun _ => rfl
  | succ n ih => exact fun sess => ih sess

/-- C9: a menu file that parses to a falsy value is treated as not found
(404, not 500) by both GET / and POST /chat, while a parsed dict carrying a
truthy "error" binding is treated as an invalid menu (500) by both. -/
theorem falsy_menu_404_and_error_menu_500 (fs : String → MenuFile)
    (completion : List Msg → Completion) (sess : Option (List Msg))
    (slug : String) (bm : Option String) (j : Json)
    (hne : slug ≠ "") (hparse : fs slug = .parsed j) :
    (j.truthy = false →
      (index fs (some slug)).status = 404 ∧
      (chat fs completion sess ⟨bm, some slug, none⟩).status = 404) ∧
    (∀ fields v, j = .obj fields → dictGet fields "error" = some v →
      v.truthy = true →
      (index fs (some slug)).status = 500 ∧
      (chat fs completion sess ⟨bm, some slug, none⟩).status = 500) := by
  have hload : load_menu_data fs slug = some j := by
    unfold load_menu_data
    rw [hparse]
  constructor
  · intro hfalsy
    constructor
    · rw [index_falsy_404 fs slug j hne hload hfalsy]
      rfl
    · rw [chat_falsy_404 fs completion sess _ slug j (restaurant_of_body bm slug hne)
        hne hload hfalsy]
      rfl
  · intro fields v hj hv htr
    subst hj
    constructor
    · rw [index_error_500 fs slug fields v hne hload hv htr]
      rfl
    · rw [chat_error_500 fs completion sess _ slug fields v (restaurant_of_body bm slug hne)
        hne hload hv htr]
      rfl

/-- C9 witness: the empty-dict menu gives 404, the error dict gives 500. -/
theorem falsy_menu_404_and_error_menu_500_witness :
    ((index fsFalsy (some "joes_grill")).status = 404 ∧
      (chat fsFalsy compOk (some []) ⟨some "m", some "joes_grill", none⟩).status = 404) ∧
    ((index fsErr (some "joes_grill")).status = 500 ∧
      (chat fsErr compOk (some []) ⟨some "m", some "joes_grill", none⟩).status = 500) :=
  ⟨(falsy_menu_404_and_error_menu_500 fsFalsy compOk (some []) "joes_grill" (some "m")
      (.obj []) (by decide) rfl).1 rfl,
   (falsy_menu_404_and_error_menu_500 fsErr compOk (some []) "joes_grill" (some "m")
      (.obj [("error", .str "bad menu")]) (by decide) rfl).2
      [("error", .str "bad menu")] (.str "bad menu") rfl rfl rfl⟩

/-- C10: when menu resolution fails — file absent, falsy parse, or a truthy
error dict — the chat handler answers 404 or 500 with the session exactly
as it was before the request: no read, initialization, or append. -/
theorem menu_error_leaves_history_unchanged (fs : String → MenuFile)
    (completion : List Msg → Completion) (sess : Option (List Msg))
    (req : ChatReq) (restaurant_name : String)
    (hname : restaurant_of req = some restaurant_name)
    (hne : restaurant_name ≠ "") :
    (load_menu_data fs restaurant_name = none →
      chat fs completion sess req =
        .resp (.str ("Menu for restaurant \'" ++ restaurant_name ++ "\' not found."))
          404 sess) ∧
    (∀ j, load_menu_data fs restaurant_name = some j → j.truthy = false →
      chat fs completion sess req =
        .resp (.str ("Menu for restaurant \'" ++ restaurant_name ++ "\' not found."))
          404 sess) ∧
    (∀ fields v, load_menu_data fs restaurant_name = some (.obj fields) →
      dictGet fields "error" = some v → v.truthy = true →
      chat fs completion sess req = .resp v 500 sess) :=
  ⟨fun hmiss => chat_missing_404 fs completion sess req restaurant_name hname hne hmiss,
   fun j hload hfalsy =>
     chat_falsy_404 fs completion sess req restaurant_name j hname hne hload hfalsy,
   fun fields v hload hv htr =>
     chat_error_500 fs completion sess req restaurant_name fields v hname hne hload hv htr⟩

/-- C10 witness: the missing, falsy and error cases at concrete inputs. -/
theorem menu_error_leaves_history_unchanged_witness :
    (chat fsEx compOk (some [⟨"user", "old"⟩])
        ⟨some "m", some "nope", none⟩ =
      .resp (.str ("Menu for restaurant \'" ++ "nope" ++ "\' not found.")) 404
        (some [⟨"user", "old"⟩])) ∧
    (chat fsErr compOk (some [⟨"user", "old"⟩])
        ⟨some "m", some "joes_grill", none⟩ =
      .resp (.str "bad menu") 500 (some [⟨"user", "old"⟩])) :=
  ⟨(menu_error_leaves_history_unchanged fsEx compOk (some [⟨"user", "old"⟩])
      ⟨some "m", some "nope", none⟩ "nope" rfl (by decide)).1 rfl,
   (menu_error_leaves_history_unchanged fsErr compOk (some [⟨"user", "old"⟩])
      ⟨some "m", some "joes_grill", none⟩ "joes_grill" rfl (by decide)).2.2
      [("error", .str "bad menu")] (.str "bad menu") rfl rfl rfl⟩

/-- C2 witness: at the concrete Caesar Salad menu, the system prompt embeds
the serialized menu items. -/
theorem chat_messages_structure_witness :
    ∃ pre post, chat_system_prompt menuEx "joes_grill" =
      pre ++ json_dumps ((dictGet menuEx "menu_items").getD (.arr [])) ++ post :=
  (chat_messages_structure fsEx compOk (some []) ⟨some "q", some "joes_grill", none⟩
    "joes_grill" menuEx rfl (by decide) rfl rfl
    (fun v hv => by
      have h0 : dictGet menuEx "error" = none := rfl
      rw [h0] at hv
      exact Option.noConfusion hv)).2.2.2.2.2
